import Mathlib

/-!
Shallow embedding of the `zhangjiuyi/engine` excerpt:

* `src/packages/rhi-webgl/src/GLPrimitive.ts` — a WebGL primitive-draw
  adapter.  The mutable object state (`attribLocArray`, the `vao` cache
  map, the capability flags) becomes an explicit `GLPrimitive` state
  record, the GL context becomes a trace of emitted `GLOp` commands, and
  each method becomes a pure function `state → state × trace`.
* `src/packages/core/src/shader/ShaderPool.ts` — a static registry of
  built-in shader programs; `Shader.create` becomes appending a record to
  a pool list.

WebGL objects (buffers, vertex array objects) are identified by `Nat`
handles; a nullable GL binding argument is an `Option Nat`.  JavaScript's
falsy test on `instanceCount` is `= 0` on `Nat`; attribute locations are
`Int` so the `-1` sentinel of `getAttribLocation` is representable.  The
JS `Map` used for the VAO cache is an insertion-ordered association list.
-/

/-- One vertex attribute description from `primitive._vertexElementMap`
(fields read by `bindBufferAndAttrib`: `bindingIndex`, `_glElementInfo`'s
`size` and `type`, `normalized`, `offset`, `instanceDivisor`). -/
structure VertexElement where
  bindingIndex : Nat
  size : Nat
  type : Nat
  normalized : Bool
  offset : Nat
  instanceDivisor : Nat
deriving DecidableEq

/-- One entry of `primitive.vertexBufferBindings` (fields read:
`buffer._nativeBuffer` and `stride`). -/
structure VertexBufferBinding where
  nativeBuffer : Nat
  stride : Nat
deriving DecidableEq

/-- `primitive.indexBufferBinding` (field read: `buffer._nativeBuffer`). -/
structure IndexBufferBinding where
  nativeBuffer : Nat
deriving DecidableEq

/-- The fields of a core `Primitive` that `GLPrimitive` reads.
`vertexBufferBindings` is total (source indexes it with an in-range
`element.bindingIndex`); `vertexElementMap` is `_vertexElementMap`. -/
structure Primitive where
  indexBufferBinding : Option IndexBufferBinding
  instanceCount : Nat
  glIndexType : Nat
  vertexBufferBindings : Nat → VertexBufferBinding
  vertexElementMap : String → Option VertexElement

/-- The fields of a `SubPrimitive` that `draw` reads. -/
structure SubPrimitive where
  topology : Nat
  start : Nat
  count : Nat
deriving DecidableEq

/-- The fields of a shader program that `GLPrimitive` reads:
`id` and the `attributeLocation` record, modelled as the ordered list of
(name, location) pairs that a JS `for-in` loop visits. -/
structure ShaderProgram where
  id : Nat
  attributeLocation : List (String × Int)
deriving DecidableEq

/-- A WebGL command, as emitted against the `gl` context (plus the two
`Logger` calls).  `Option Nat` arguments model nullable GL object
parameters (`null` = `none`). -/
inductive GLOp where
  | bindVertexArray (v : Option Nat)
  | createVertexArray (v : Nat)
  | deleteVertexArray (v : Nat)
  | bindElementArrayBuffer (b : Option Nat)
  | bindArrayBuffer (b : Option Nat)
  | enableVertexAttribArray (loc : Int)
  | vertexAttribPointer (loc : Int) (size : Nat) (type : Nat)
      (normalized : Bool) (stride : Nat) (offset : Nat)
  | vertexAttribDivisor (loc : Int) (divisor : Nat)
  | disableVertexAttribArray (loc : Int)
  | drawElements (topology count glIndexType start : Nat)
  | drawArrays (topology start count : Nat)
  | drawElementsInstanced (topology count glIndexType start instanceCount : Nat)
  | drawArraysInstanced (topology start count instanceCount : Nat)
  | logError (msg : String)
  | logWarn (msg : String)
deriving DecidableEq

/-- Lookup in the insertion-ordered association list modelling the JS
`Map` (`Map.prototype.get`). -/
def vaoGet : List (Nat × Nat) → Nat → Option Nat
  | [], _ => none
  | (a, b) :: rest, k => if a = k then some b else vaoGet rest k

/-- `Map.prototype.has`. -/
def vaoHas (m : List (Nat × Nat)) (k : Nat) : Bool :=
  (vaoGet m k).isSome

/-- `Map.prototype.set`: updates in place if the key exists, otherwise
appends (JS `Map` preserves insertion order). -/
def vaoSet : List (Nat × Nat) → Nat → Nat → List (Nat × Nat)
  | [], k, v => [(k, v)]
  | (a, b) :: rest, k, v =>
    if a = k then (a, v) :: rest else (a, b) :: vaoSet rest k v

/-- The state of a `GLPrimitive` instance: its mutable fields plus the
constructor-set flags.  `nextVao` is the fresh-handle counter standing
for `gl.createVertexArray` returning a new GL object. -/
structure GLPrimitive where
  primitive : Primitive
  attribLocArray : List Int
  canUseInstancedArrays : Bool
  useVao : Bool
  vao : List (Nat × Nat)
  nextVao : Nat

namespace GLPrimitive

/-- The `for (const name in attributeLocation)` loop body of
`bindBufferAndAttrib`, over the remaining entries, threading the
`lastBoundVbo` dedup variable; returns the locations pushed onto
`attribLocArray` and the GL commands emitted, in order. -/
def bbaLoop (prim : Primitive) (cua : Bool) :
    List (String × Int) → Option Nat → List Int × List GLOp
  | [], _ => ([], [])
  | (name, loc) :: rest, lastBoundVbo =>
    if loc = -1 then bbaLoop prim cua rest lastBoundVbo
    else
      match prim.vertexElementMap name with
      | some element =>
        let binding := prim.vertexBufferBindings element.bindingIndex
        let vbo := binding.nativeBuffer
        let bindOps : List GLOp :=
          if lastBoundVbo = some vbo then [] else [GLOp.bindArrayBuffer (some vbo)]
        let divisorOps : List GLOp :=
          if cua then [GLOp.vertexAttribDivisor loc element.instanceDivisor] else []
        let res := bbaLoop prim cua rest (some vbo)
        (loc :: res.1,
          bindOps ++
            GLOp.enableVertexAttribArray loc ::
              GLOp.vertexAttribPointer loc element.size element.type
                element.normalized binding.stride element.offset ::
              (divisorOps ++ res.2))
      | none =>
        let res := bbaLoop prim cua rest lastBoundVbo
        (res.1, GLOp.logWarn ("vertex attribute not found: " ++ name) :: res.2)

/-- `GLPrimitive.bindBufferAndAttrib`: runs the attribute loop (resetting
`attribLocArray` first), then unbinds `ARRAY_BUFFER`. -/
def bindBufferAndAttrib (p : GLPrimitive) (shaderProgram : ShaderProgram) :
    GLPrimitive × List GLOp :=
  let res := bbaLoop p.primitive p.canUseInstancedArrays shaderProgram.attributeLocation none
  ({ p with attribLocArray := res.1 }, res.2 ++ [GLOp.bindArrayBuffer none])

/-- `GLPrimitive.disableAttrib`: disables exactly the locations recorded
in `attribLocArray`, in order. -/
def disableAttrib (p : GLPrimitive) : List GLOp :=
  p.attribLocArray.map GLOp.disableVertexAttribArray

/-- `GLPrimitive.registerVAO`: creates a VAO, records index buffer and
vertex attributes into it, unbinds everything, and caches the VAO under
`shaderProgram.id`. -/
def registerVAO (p : GLPrimitive) (shaderProgram : ShaderProgram) :
    GLPrimitive × List GLOp :=
  let vaoHandle := p.nextVao
  let p0 : GLPrimitive := { p with nextVao := p.nextVao + 1 }
  let ibOps : List GLOp :=
    match p.primitive.indexBufferBinding with
    | some ibb => [GLOp.bindElementArrayBuffer (some ibb.nativeBuffer)]
    | none => []
  let bba := bindBufferAndAttrib p0 shaderProgram
  let p2 : GLPrimitive := { bba.1 with vao := vaoSet bba.1.vao shaderProgram.id vaoHandle }
  (p2,
    GLOp.createVertexArray vaoHandle ::
      GLOp.bindVertexArray (some vaoHandle) ::
        (ibOps ++ bba.2 ++
          (GLOp.bindVertexArray none ::
            GLOp.bindElementArrayBuffer none :: disableAttrib bba.1)))

/-- The draw-call dispatch block of `GLPrimitive.draw` (the
`if (!instanceCount) ... else ...` statement), parameterised by the two
capability flags and the primitive/sub-primitive fields it reads. -/
def glDrawDispatch (useVao cua : Bool) (prim : Primitive) (sub : SubPrimitive) :
    List GLOp :=
  if prim.instanceCount = 0 then
    match prim.indexBufferBinding with
    | some ibb =>
      if useVao then
        [GLOp.drawElements sub.topology sub.count prim.glIndexType sub.start]
      else
        [GLOp.bindElementArrayBuffer (some ibb.nativeBuffer),
         GLOp.drawElements sub.topology sub.count prim.glIndexType sub.start,
         GLOp.bindElementArrayBuffer none]
    | none => [GLOp.drawArrays sub.topology sub.start sub.count]
  else
    if cua then
      match prim.indexBufferBinding with
      | some ibb =>
        if useVao then
          [GLOp.drawElementsInstanced sub.topology sub.count prim.glIndexType
            sub.start prim.instanceCount]
        else
          [GLOp.bindElementArrayBuffer (some ibb.nativeBuffer),
           GLOp.drawElementsInstanced sub.topology sub.count prim.glIndexType
             sub.start prim.instanceCount,
           GLOp.bindElementArrayBuffer none]
      | none =>
        [GLOp.drawArraysInstanced sub.topology sub.start sub.count
          prim.instanceCount]
    else [GLOp.logError "ANGLE_instanced_arrays extension is not supported"]

/-- `GLPrimitive.draw`: bind section (VAO lookup/registration, or direct
buffer-and-attribute binding), draw-call dispatch, unbind section. -/
def draw (p : GLPrimitive) (shaderProgram : ShaderProgram)
    (subPrimitive : SubPrimitive) : GLPrimitive × List GLOp :=
  let pre : GLPrimitive × List GLOp :=
    if p.useVao then
      let reg :=
        if vaoHas p.vao shaderProgram.id then (p, ([] : List GLOp))
        else registerVAO p shaderProgram
      (reg.1, reg.2 ++ [GLOp.bindVertexArray (vaoGet reg.1.vao shaderProgram.id)])
    else bindBufferAndAttrib p shaderProgram
  let p1 := pre.1
  let post : List GLOp :=
    if p1.useVao then [GLOp.bindVertexArray none] else disableAttrib p1
  (p1,
    pre.2 ++
      glDrawDispatch p1.useVao p1.canUseInstancedArrays p1.primitive subPrimitive ++
      post)

/-- `GLPrimitive.destroy`: in VAO mode deletes every cached VAO (one
`deleteVertexArray` per map entry, in insertion order); otherwise does
nothing.  The map itself is not cleared. -/
def destroy (p : GLPrimitive) : GLPrimitive × List GLOp :=
  if p.useVao then
    (p, p.vao.map (fun e => GLOp.deleteVertexArray e.2))
  else (p, [])

/-- A sequence of `draw` calls, threading the state and concatenating the
traces. -/
def drawSeq (p : GLPrimitive) :
    List (ShaderProgram × SubPrimitive) → GLPrimitive × List GLOp
  | [] => (p, [])
  | c :: rest =>
    let fst := draw p c.1 c.2
    let more := drawSeq fst.1 rest
    (more.1, fst.2 ++ more.2)

end GLPrimitive

/-! ## ShaderPool (`src/packages/core/src/shader/ShaderPool.ts`) -/

/-- The statically imported GLSL sources of `ShaderPool.ts`, as opaque
tokens (one per `import ... from "../shaderlib/extra/*.glsl"` line). -/
inductive ShaderSource where
  | blinnPhongFs
  | blinnPhongVs
  | pbrFs
  | pbrVs
  | shadowMapFs
  | shadowMapVs
  | shadowFs
  | skyboxFs
  | skyboxVs
  | particleFs
  | particleVs
deriving DecidableEq

/-- A shader program registered by `Shader.create(name, vs, fs)`. -/
structure Shader where
  name : String
  vertexSource : ShaderSource
  fragmentSource : ShaderSource
deriving DecidableEq

/-- `Shader.create`, observed through the pool of registered programs: it
appends the new (name, vertex source, fragment source) program. -/
def Shader.create (pool : List Shader) (name : String)
    (vs fs : ShaderSource) : List Shader :=
  pool ++ [{ name := name, vertexSource := vs, fragmentSource := fs }]

/-- `ShaderPool.init`: the six `Shader.create` calls, in source order,
starting from an empty registry.  It takes no input. -/
def ShaderPool.init : List Shader :=
  Shader.create
    (Shader.create
      (Shader.create
        (Shader.create
          (Shader.create
            (Shader.create [] "blinn-phong" ShaderSource.blinnPhongVs
              ShaderSource.blinnPhongFs)
            "pbr" ShaderSource.pbrVs ShaderSource.pbrFs)
          "shadow-map" ShaderSource.shadowMapVs ShaderSource.shadowMapFs)
        "shadow" ShaderSource.shadowMapVs ShaderSource.shadowFs)
      "skybox" ShaderSource.skyboxVs ShaderSource.skyboxFs)
    "particle-shader" ShaderSource.particleVs ShaderSource.particleFs

/-! ## Trace observations -/

/-- Whether a `GLOp` is one of the four GL draw calls. -/
def GLOp.isDrawCall : GLOp → Bool
  | .drawElements _ _ _ _ => true
  | .drawArrays _ _ _ => true
  | .drawElementsInstanced _ _ _ _ _ => true
  | .drawArraysInstanced _ _ _ _ => true
  | _ => false

/-- Whether a `GLOp` is a `createVertexArray`. -/
def GLOp.isCreateVA : GLOp → Bool
  | .createVertexArray _ => true
  | _ => false

/-- Whether a `GLOp` is a `vertexAttribPointer` (direct attribute
specification). -/
def GLOp.isAttribPointer : GLOp → Bool
  | .vertexAttribPointer _ _ _ _ _ _ => true
  | _ => false

/-- Whether a `GLOp` binds a non-null buffer to `ELEMENT_ARRAY_BUFFER`. -/
def GLOp.isBindIndexBuffer : GLOp → Bool
  | .bindElementArrayBuffer (some _) => true
  | _ => false

/-- The `Logger.error` messages in a trace, in order. -/
def errorLogs (tr : List GLOp) : List String :=
  tr.filterMap fun op =>
    match op with
    | .logError msg => some msg
    | _ => none

/-- The `Logger.warn` messages in a trace, in order. -/
def warnLogs (tr : List GLOp) : List String :=
  tr.filterMap fun op =>
    match op with
    | .logWarn msg => some msg
    | _ => none

/-- The locations enabled by `enableVertexAttribArray` in a trace, in
order. -/
def enabledLocs (tr : List GLOp) : List Int :=
  tr.filterMap fun op =>
    match op with
    | .enableVertexAttribArray loc => some loc
    | _ => none

/-- The locations disabled by `disableVertexAttribArray` in a trace, in
order. -/
def disabledLocs (tr : List GLOp) : List Int :=
  tr.filterMap fun op =>
    match op with
    | .disableVertexAttribArray loc => some loc
    | _ => none

/-- The arguments of the `bindBuffer(ARRAY_BUFFER, _)` calls in a trace,
in order. -/
def arrayBufferBinds (tr : List GLOp) : List (Option Nat) :=
  tr.filterMap fun op =>
    match op with
    | .bindArrayBuffer b => some b
    | _ => none

/-- The keys of the VAO cache map, in insertion order. -/
def vaoKeys (m : List (Nat × Nat)) : List Nat :=
  m.map Prod.fst

/-- How many ids of a draw sequence are new relative to a known key set,
counting each distinct new id once (the spec-side count for "registerVAO
runs at most once per distinct shader program id"). -/
def freshIdCount (known : List Nat) : List Nat → Nat
  | [] => 0
  | i :: rest =>
    if i ∈ known then freshIdCount known rest
    else freshIdCount (i :: known) rest + 1

/-- Whether a `GLOp` is one of the commands that the
`bindBufferAndAttrib` attribute loop can emit. -/
def GLOp.isAttribLoopOp : GLOp → Bool
  | .bindArrayBuffer (some _) => true
  | .enableVertexAttribArray _ => true
  | .vertexAttribPointer _ _ _ _ _ _ => true
  | .vertexAttribDivisor _ _ => true
  | .logWarn _ => true
  | _ => false

/-- Whether a `GLOp` is a `deleteVertexArray`. -/
def GLOp.isDeleteVA : GLOp → Bool
  | .deleteVertexArray _ => true
  | _ => false

/-! ## Sample inputs for concrete witnesses -/

/-- A concrete primitive: indexed, not instanced, one vertex element. -/
def samplePrimitive : Primitive where
  indexBufferBinding := some { nativeBuffer := 5 }
  instanceCount := 0
  glIndexType := 4
  vertexBufferBindings := fun _ => { nativeBuffer := 1, stride := 16 }
  vertexElementMap := fun name =>
    if name = "POSITION" then
      some { bindingIndex := 0, size := 3, type := 6, normalized := false,
             offset := 0, instanceDivisor := 0 }
    else none

/-- A concrete `GLPrimitive` state in non-VAO mode. -/
def sampleGL : GLPrimitive where
  primitive := samplePrimitive
  attribLocArray := []
  canUseInstancedArrays := true
  useVao := false
  vao := []
  nextVao := 0

/-- A concrete `GLPrimitive` state in VAO mode with one cached VAO. -/
def sampleGLVao : GLPrimitive :=
  { sampleGL with useVao := true, vao := [(7, 42)], nextVao := 43 }

/-- A concrete `GLPrimitive` state with a truthy `instanceCount` and no
instanced-arrays support. -/
def sampleGLNoInst : GLPrimitive :=
  { sampleGL with
      canUseInstancedArrays := false,
      primitive := { samplePrimitive with instanceCount := 2 } }

/-- A concrete shader program whose attributes exercise all three loop
branches: found, location `-1`, and missing element. -/
def sampleShaderProgram : ShaderProgram where
  id := 7
  attributeLocation := [("POSITION", 0), ("NORMAL", -1), ("COLOR", 2)]

/-- A concrete sub-primitive. -/
def sampleSub : SubPrimitive where
  topology := 4
  start := 0
  count := 3

/-- The draw call that the specification says `draw` selects from
`(instanceCount, indexBufferBinding)`, assuming the error branch is not
taken.  Written from the spec's words, to be compared with the trace of
`GLPrimitive.draw`. -/
def specSelectedDraw (prim : Primitive) (sub : SubPrimitive) : GLOp :=
  if prim.instanceCount = 0 then
    match prim.indexBufferBinding with
    | some _ => GLOp.drawElements sub.topology sub.count prim.glIndexType sub.start
    | none => GLOp.drawArrays sub.topology sub.start sub.count
  else
    match prim.indexBufferBinding with
    | some _ =>
      GLOp.drawElementsInstanced sub.topology sub.count prim.glIndexType
        sub.start prim.instanceCount
    | none =>
      GLOp.drawArraysInstanced sub.topology sub.start sub.count
        prim.instanceCount

/-! ## Lemmas about the VAO cache map -/

theorem vaoGet_vaoSet_self (m : List (Nat × Nat)) (k v : Nat) :
    vaoGet (vaoSet m k v) k = some v := by
  induction m with
  | nil => simp [vaoSet, vaoGet]
  | cons head rest ih =>
    obtain ⟨a, b⟩ := head
    by_cases h : a = k
    · simp [vaoSet, vaoGet, h]
    · simp [vaoSet, vaoGet, h, ih]

theorem vaoGet_vaoSet_of_ne (m : List (Nat × Nat)) (k v j : Nat) (h : j ≠ k) :
    vaoGet (vaoSet m k v) j = vaoGet m j := by
  have hkj : ¬k = j := fun hh => h hh.symm
  induction m with
  | nil => simp [vaoSet, vaoGet, hkj]
  | cons head rest ih =>
    obtain ⟨a, b⟩ := head
    by_cases hk : a = k
    · simp [vaoSet, vaoGet, hk, hkj]
    · simp [vaoSet, vaoGet, hk, ih]

theorem vaoHas_iff_mem_vaoKeys (m : List (Nat × Nat)) (k : Nat) :
    vaoHas m k = true ↔ k ∈ vaoKeys m := by
  induction m with
  | nil => simp [vaoHas, vaoGet, vaoKeys]
  | cons head rest ih =>
    obtain ⟨a, b⟩ := head
    by_cases h : a = k
    · simp [vaoHas, vaoGet, vaoKeys, h]
    · have hne : ¬k = a := fun hh => h hh.symm
      simp only [vaoHas, vaoKeys, List.map_cons, List.mem_cons] at ih ⊢
      simp [vaoGet, h, hne, ih]

theorem vaoKeys_vaoSet_of_not_has (m : List (Nat × Nat)) (k v : Nat)
    (h : vaoHas m k = false) : vaoKeys (vaoSet m k v) = vaoKeys m ++ [k] := by
  induction m with
  | nil => simp [vaoSet, vaoKeys]
  | cons head rest ih =>
    obtain ⟨a, b⟩ := head
    by_cases hk : a = k
    · exfalso
      simp [vaoHas, vaoGet, hk] at h
    · have hrest : vaoHas rest k = false := by
        simpa [vaoHas, vaoGet, hk] using h
      simpa [vaoSet, vaoKeys, hk] using ih hrest

/-! ## Lemmas about the attribute loop -/

theorem bbaLoop_fst (prim : Primitive) (cua : Bool)
    (al : List (String × Int)) (lb : Option Nat) :
    (GLPrimitive.bbaLoop prim cua al lb).1 =
      al.filterMap (fun nl =>
        if nl.2 = -1 then none
        else if (prim.vertexElementMap nl.1).isSome then some nl.2 else none) := by
  induction al generalizing lb with
  | nil => simp [GLPrimitive.bbaLoop]
  | cons head tail ih =>
    obtain ⟨name, loc⟩ := head
    by_cases hloc : loc = -1
    · simp [GLPrimitive.bbaLoop, hloc, ih]
    · cases hel : prim.vertexElementMap name with
      | some element => simp [GLPrimitive.bbaLoop, hloc, hel, ih]
      | none => simp [GLPrimitive.bbaLoop, hloc, hel, ih]

theorem bbaLoop_all_attribLoopOp (prim : Primitive) (cua : Bool)
    (al : List (String × Int)) (lb : Option Nat) :
    ∀ op ∈ (GLPrimitive.bbaLoop prim cua al lb).2, op.isAttribLoopOp = true := by
  induction al generalizing lb with
  | nil => simp [GLPrimitive.bbaLoop]
  | cons head tail ih =>
    obtain ⟨name, loc⟩ := head
    by_cases hloc : loc = -1
    · simpa [GLPrimitive.bbaLoop, hloc] using ih lb
    · cases hel : prim.vertexElementMap name with
      | some element =>
        intro op hop
        simp [GLPrimitive.bbaLoop, hloc, hel] at hop
        rcases hop with hop | hop | hop | hop | hop
        · rcases hop with ⟨-, rfl⟩
          rfl
        · subst hop
          rfl
        · subst hop
          rfl
        · rcases hop with ⟨-, rfl⟩
          rfl
        · exact ih _ op hop
      | none =>
        intro op hop
        simp [GLPrimitive.bbaLoop, hloc, hel] at hop
        rcases hop with hop | hop
        · subst hop
          rfl
        · exact ih _ op hop

theorem enabledLocs_bbaLoop (prim : Primitive) (cua : Bool)
    (al : List (String × Int)) (lb : Option Nat) :
    enabledLocs (GLPrimitive.bbaLoop prim cua al lb).2 =
      (GLPrimitive.bbaLoop prim cua al lb).1 := by
  induction al generalizing lb with
  | nil => simp [GLPrimitive.bbaLoop, enabledLocs]
  | cons head tail ih =>
    obtain ⟨name, loc⟩ := head
    simp only [enabledLocs] at ih ⊢
    by_cases hloc : loc = -1
    · simp [GLPrimitive.bbaLoop, hloc, ih]
    · cases hel : prim.vertexElementMap name with
      | some element =>
        by_cases hlb : lb = some (prim.vertexBufferBindings element.bindingIndex).nativeBuffer <;>
          cases cua <;>
            simp [GLPrimitive.bbaLoop, hloc, hel, hlb, ih]
      | none =>
        simp [GLPrimitive.bbaLoop, hloc, hel, ih]

theorem warnLogs_bbaLoop (prim : Primitive) (cua : Bool)
    (al : List (String × Int)) (lb : Option Nat) :
    warnLogs (GLPrimitive.bbaLoop prim cua al lb).2 =
      al.filterMap (fun nl =>
        if nl.2 = -1 then none
        else if (prim.vertexElementMap nl.1).isSome then none
        else some ("vertex attribute not found: " ++ nl.1)) := by
  induction al generalizing lb with
  | nil => simp [GLPrimitive.bbaLoop, warnLogs]
  | cons head tail ih =>
    obtain ⟨name, loc⟩ := head
    simp only [warnLogs] at ih ⊢
    by_cases hloc : loc = -1
    · simp [GLPrimitive.bbaLoop, hloc, ih]
    · cases hel : prim.vertexElementMap name with
      | some element =>
        by_cases hlb : lb = some (prim.vertexBufferBindings element.bindingIndex).nativeBuffer <;>
          cases cua <;>
            simp [GLPrimitive.bbaLoop, hloc, hel, hlb, ih]
      | none =>
        simp [GLPrimitive.bbaLoop, hloc, hel, ih]

theorem filterMap_eq_nil_of_attribLoop {α : Type} (f : GLOp → Option α)
    (hf : ∀ op, op.isAttribLoopOp = true → f op = none)
    (l : List GLOp) (hl : ∀ op ∈ l, op.isAttribLoopOp = true) :
    l.filterMap f = [] := by
  rw [List.filterMap_eq_nil_iff]
  exact fun a ha => hf a (hl a ha)

theorem countP_eq_zero_of_attribLoop (q : GLOp → Bool)
    (hq : ∀ op, op.isAttribLoopOp = true → q op = false)
    (l : List GLOp) (hl : ∀ op ∈ l, op.isAttribLoopOp = true) :
    l.countP q = 0 := by
  rw [List.countP_eq_zero]
  intro a ha
  simp [hq a (hl a ha)]

theorem errorLogs_bbaLoop (prim : Primitive) (cua : Bool)
    (al : List (String × Int)) (lb : Option Nat) :
    errorLogs (GLPrimitive.bbaLoop prim cua al lb).2 = [] := by
  refine filterMap_eq_nil_of_attribLoop _ ?_ _ (bbaLoop_all_attribLoopOp prim cua al lb)
  intro op hop
  cases op <;> simp_all [GLOp.isAttribLoopOp]

theorem disabledLocs_bbaLoop (prim : Primitive) (cua : Bool)
    (al : List (String × Int)) (lb : Option Nat) :
    disabledLocs (GLPrimitive.bbaLoop prim cua al lb).2 = [] := by
  refine filterMap_eq_nil_of_attribLoop _ ?_ _ (bbaLoop_all_attribLoopOp prim cua al lb)
  intro op hop
  cases op <;> simp_all [GLOp.isAttribLoopOp]

theorem filter_isDrawCall_bbaLoop (prim : Primitive) (cua : Bool)
    (al : List (String × Int)) (lb : Option Nat) :
    (GLPrimitive.bbaLoop prim cua al lb).2.filter GLOp.isDrawCall = [] := by
  rw [List.filter_eq_nil_iff]
  intro op hop
  have h := bbaLoop_all_attribLoopOp prim cua al lb op hop
  cases op <;> simp_all [GLOp.isAttribLoopOp, GLOp.isDrawCall]

theorem countP_isCreateVA_bbaLoop (prim : Primitive) (cua : Bool)
    (al : List (String × Int)) (lb : Option Nat) :
    (GLPrimitive.bbaLoop prim cua al lb).2.countP GLOp.isCreateVA = 0 := by
  refine countP_eq_zero_of_attribLoop _ ?_ _ (bbaLoop_all_attribLoopOp prim cua al lb)
  intro op hop
  cases op <;> simp_all [GLOp.isAttribLoopOp, GLOp.isCreateVA]

theorem countP_isBindIndexBuffer_bbaLoop (prim : Primitive) (cua : Bool)
    (al : List (String × Int)) (lb : Option Nat) :
    (GLPrimitive.bbaLoop prim cua al lb).2.countP GLOp.isBindIndexBuffer = 0 := by
  refine countP_eq_zero_of_attribLoop _ ?_ _ (bbaLoop_all_attribLoopOp prim cua al lb)
  intro op hop
  cases op <;> simp_all [GLOp.isAttribLoopOp, GLOp.isBindIndexBuffer]

/-! ## Lemmas about the draw-call dispatch block -/

theorem glDrawDispatch_filter_isDrawCall (u c : Bool) (prim : Primitive)
    (sub : SubPrimitive) (h : prim.instanceCount = 0 ∨ c = true) :
    (GLPrimitive.glDrawDispatch u c prim sub).filter GLOp.isDrawCall =
      [specSelectedDraw prim sub] := by
  by_cases h0 : prim.instanceCount = 0 <;>
    cases hibb : prim.indexBufferBinding <;>
      cases u <;> cases c <;>
        simp_all [GLPrimitive.glDrawDispatch, specSelectedDraw,
          GLOp.isDrawCall]

theorem glDrawDispatch_error (u c : Bool) (prim : Primitive)
    (sub : SubPrimitive) (h0 : prim.instanceCount ≠ 0) (hc : c = false) :
    GLPrimitive.glDrawDispatch u c prim sub =
      [GLOp.logError "ANGLE_instanced_arrays extension is not supported"] := by
  subst hc
  simp [GLPrimitive.glDrawDispatch, h0]

theorem countP_isCreateVA_glDrawDispatch (u c : Bool) (prim : Primitive)
    (sub : SubPrimitive) :
    (GLPrimitive.glDrawDispatch u c prim sub).countP GLOp.isCreateVA = 0 := by
  by_cases h0 : prim.instanceCount = 0 <;>
    cases hibb : prim.indexBufferBinding <;>
      cases u <;> cases c <;>
        simp_all [GLPrimitive.glDrawDispatch, GLOp.isCreateVA]

theorem enabledLocs_glDrawDispatch (u c : Bool) (prim : Primitive)
    (sub : SubPrimitive) :
    enabledLocs (GLPrimitive.glDrawDispatch u c prim sub) = [] := by
  by_cases h0 : prim.instanceCount = 0 <;>
    cases hibb : prim.indexBufferBinding <;>
      cases u <;> cases c <;>
        simp_all [GLPrimitive.glDrawDispatch, enabledLocs]

theorem disabledLocs_glDrawDispatch (u c : Bool) (prim : Primitive)
    (sub : SubPrimitive) :
    disabledLocs (GLPrimitive.glDrawDispatch u c prim sub) = [] := by
  by_cases h0 : prim.instanceCount = 0 <;>
    cases hibb : prim.indexBufferBinding <;>
      cases u <;> cases c <;>
        simp_all [GLPrimitive.glDrawDispatch, disabledLocs]

theorem errorLogs_glDrawDispatch (u c : Bool) (prim : Primitive)
    (sub : SubPrimitive) (h : prim.instanceCount = 0 ∨ c = true) :
    errorLogs (GLPrimitive.glDrawDispatch u c prim sub) = [] := by
  by_cases h0 : prim.instanceCount = 0 <;>
    cases hibb : prim.indexBufferBinding <;>
      cases u <;> cases c <;>
        simp_all [GLPrimitive.glDrawDispatch, errorLogs]

theorem filter_isAttribPointer_glDrawDispatch (u c : Bool) (prim : Primitive)
    (sub : SubPrimitive) :
    (GLPrimitive.glDrawDispatch u c prim sub).filter GLOp.isAttribPointer = [] := by
  by_cases h0 : prim.instanceCount = 0 <;>
    cases hibb : prim.indexBufferBinding <;>
      cases u <;> cases c <;>
        simp_all [GLPrimitive.glDrawDispatch, GLOp.isAttribPointer]

/-! ## State-field lemmas for the method results -/

theorem bba_fst_useVao (p : GLPrimitive) (sp : ShaderProgram) :
    (GLPrimitive.bindBufferAndAttrib p sp).1.useVao = p.useVao := rfl

theorem bba_fst_canUse (p : GLPrimitive) (sp : ShaderProgram) :
    (GLPrimitive.bindBufferAndAttrib p sp).1.canUseInstancedArrays =
      p.canUseInstancedArrays := rfl

theorem bba_fst_primitive (p : GLPrimitive) (sp : ShaderProgram) :
    (GLPrimitive.bindBufferAndAttrib p sp).1.primitive = p.primitive := rfl

theorem bba_fst_vao (p : GLPrimitive) (sp : ShaderProgram) :
    (GLPrimitive.bindBufferAndAttrib p sp).1.vao = p.vao := rfl

theorem bba_fst_nextVao (p : GLPrimitive) (sp : ShaderProgram) :
    (GLPrimitive.bindBufferAndAttrib p sp).1.nextVao = p.nextVao := rfl

theorem bba_fst_attribLocArray (p : GLPrimitive) (sp : ShaderProgram) :
    (GLPrimitive.bindBufferAndAttrib p sp).1.attribLocArray =
      (GLPrimitive.bbaLoop p.primitive p.canUseInstancedArrays
        sp.attributeLocation none).1 := rfl

theorem bba_snd (p : GLPrimitive) (sp : ShaderProgram) :
    (GLPrimitive.bindBufferAndAttrib p sp).2 =
      (GLPrimitive.bbaLoop p.primitive p.canUseInstancedArrays
        sp.attributeLocation none).2 ++ [GLOp.bindArrayBuffer none] := rfl

theorem registerVAO_fst_useVao (p : GLPrimitive) (sp : ShaderProgram) :
    (GLPrimitive.registerVAO p sp).1.useVao = p.useVao := rfl

theorem registerVAO_fst_canUse (p : GLPrimitive) (sp : ShaderProgram) :
    (GLPrimitive.registerVAO p sp).1.canUseInstancedArrays =
      p.canUseInstancedArrays := rfl

theorem registerVAO_fst_primitive (p : GLPrimitive) (sp : ShaderProgram) :
    (GLPrimitive.registerVAO p sp).1.primitive = p.primitive := rfl

theorem registerVAO_fst_vao (p : GLPrimitive) (sp : ShaderProgram) :
    (GLPrimitive.registerVAO p sp).1.vao = vaoSet p.vao sp.id p.nextVao := rfl

theorem registerVAO_fst_nextVao (p : GLPrimitive) (sp : ShaderProgram) :
    (GLPrimitive.registerVAO p sp).1.nextVao = p.nextVao + 1 := rfl

/-! ## Observations of the disable loop -/

theorem errorLogs_map_disable (l : List Int) :
    errorLogs (l.map GLOp.disableVertexAttribArray) = [] := by
  induction l <;> simp_all [errorLogs]

theorem enabledLocs_map_disable (l : List Int) :
    enabledLocs (l.map GLOp.disableVertexAttribArray) = [] := by
  induction l <;> simp_all [enabledLocs]

theorem disabledLocs_map_disable (l : List Int) :
    disabledLocs (l.map GLOp.disableVertexAttribArray) = l := by
  induction l <;> simp_all [disabledLocs]

theorem filter_isDrawCall_map_disable (l : List Int) :
    (l.map GLOp.disableVertexAttribArray).filter GLOp.isDrawCall = [] := by
  induction l <;> simp_all [GLOp.isDrawCall]

theorem filter_isAttribPointer_map_disable (l : List Int) :
    (l.map GLOp.disableVertexAttribArray).filter GLOp.isAttribPointer = [] := by
  induction l <;> simp_all [GLOp.isAttribPointer]

theorem countP_isCreateVA_map_disable (l : List Int) :
    (l.map GLOp.disableVertexAttribArray).countP GLOp.isCreateVA = 0 := by
  induction l <;> simp_all [GLOp.isCreateVA, List.countP_cons]

theorem countP_isBindIndexBuffer_map_disable (l : List Int) :
    (l.map GLOp.disableVertexAttribArray).countP GLOp.isBindIndexBuffer = 0 := by
  induction l <;> simp_all [GLOp.isBindIndexBuffer, List.countP_cons]

/-! ## Observations of `registerVAO` -/

theorem countP_isCreateVA_registerVAO (p : GLPrimitive) (sp : ShaderProgram) :
    (GLPrimitive.registerVAO p sp).2.countP GLOp.isCreateVA = 1 := by
  cases hibb : p.primitive.indexBufferBinding <;>
    simp [GLPrimitive.registerVAO, GLPrimitive.bindBufferAndAttrib,
      GLPrimitive.disableAttrib, hibb, List.countP_cons, List.countP_append,
      GLOp.isCreateVA, countP_isCreateVA_bbaLoop, countP_isCreateVA_map_disable]

theorem errorLogs_registerVAO (p : GLPrimitive) (sp : ShaderProgram) :
    errorLogs (GLPrimitive.registerVAO p sp).2 = [] := by
  cases hibb : p.primitive.indexBufferBinding
  all_goals
    simp [GLPrimitive.registerVAO, GLPrimitive.bindBufferAndAttrib,
      GLPrimitive.disableAttrib, hibb, errorLogs, List.filterMap_append,
      errorLogs_bbaLoop, errorLogs_map_disable]
    intro a ha
    have h2 := bbaLoop_all_attribLoopOp p.primitive p.canUseInstancedArrays
      sp.attributeLocation none a ha
    cases a <;> simp_all [GLOp.isAttribLoopOp]

theorem filter_isDrawCall_registerVAO (p : GLPrimitive) (sp : ShaderProgram) :
    (GLPrimitive.registerVAO p sp).2.filter GLOp.isDrawCall = [] := by
  cases hibb : p.primitive.indexBufferBinding <;>
    simp [GLPrimitive.registerVAO, GLPrimitive.bindBufferAndAttrib,
      GLPrimitive.disableAttrib, hibb, List.filter_append, GLOp.isDrawCall,
      filter_isDrawCall_bbaLoop, filter_isDrawCall_map_disable]

/-! ## Case decompositions of `draw` -/

theorem draw_eq_of_not_useVao (p : GLPrimitive) (sp : ShaderProgram)
    (sub : SubPrimitive) (h : p.useVao = false) :
    GLPrimitive.draw p sp sub =
      ((GLPrimitive.bindBufferAndAttrib p sp).1,
        (GLPrimitive.bindBufferAndAttrib p sp).2 ++
          GLPrimitive.glDrawDispatch false p.canUseInstancedArrays p.primitive sub ++
          GLPrimitive.disableAttrib (GLPrimitive.bindBufferAndAttrib p sp).1) := by
  simp [GLPrimitive.draw, h, bba_fst_useVao, bba_fst_canUse, bba_fst_primitive]

theorem draw_eq_of_has (p : GLPrimitive) (sp : ShaderProgram)
    (sub : SubPrimitive) (hv : p.useVao = true)
    (hh : vaoHas p.vao sp.id = true) :
    GLPrimitive.draw p sp sub =
      (p,
        GLOp.bindVertexArray (vaoGet p.vao sp.id) ::
          (GLPrimitive.glDrawDispatch true p.canUseInstancedArrays p.primitive sub ++
            [GLOp.bindVertexArray none])) := by
  simp [GLPrimitive.draw, hv, hh]

theorem draw_eq_of_not_has (p : GLPrimitive) (sp : ShaderProgram)
    (sub : SubPrimitive) (hv : p.useVao = true)
    (hh : vaoHas p.vao sp.id = false) :
    GLPrimitive.draw p sp sub =
      ((GLPrimitive.registerVAO p sp).1,
        (GLPrimitive.registerVAO p sp).2 ++
          GLOp.bindVertexArray (some p.nextVao) ::
            (GLPrimitive.glDrawDispatch true p.canUseInstancedArrays p.primitive sub ++
              [GLOp.bindVertexArray none])) := by
  have hg : vaoGet (GLPrimitive.registerVAO p sp).1.vao sp.id = some p.nextVao := by
    rw [registerVAO_fst_vao]
    exact vaoGet_vaoSet_self _ _ _
  simp [GLPrimitive.draw, hv, hh, hg, registerVAO_fst_useVao,
    registerVAO_fst_canUse, registerVAO_fst_primitive]

/-! ## Derived facts about a single `draw` -/

theorem draw_fst_useVao (p : GLPrimitive) (sp : ShaderProgram)
    (sub : SubPrimitive) : (GLPrimitive.draw p sp sub).1.useVao = p.useVao := by
  cases hv : p.useVao
  · rw [draw_eq_of_not_useVao p sp sub hv, bba_fst_useVao]
    exact hv
  · cases hh : vaoHas p.vao sp.id
    · rw [draw_eq_of_not_has p sp sub hv hh, registerVAO_fst_useVao]
      exact hv
    · rw [draw_eq_of_has p sp sub hv hh]
      exact hv

theorem draw_fst_canUse (p : GLPrimitive) (sp : ShaderProgram)
    (sub : SubPrimitive) :
    (GLPrimitive.draw p sp sub).1.canUseInstancedArrays =
      p.canUseInstancedArrays := by
  cases hv : p.useVao
  · rw [draw_eq_of_not_useVao p sp sub hv, bba_fst_canUse]
  · cases hh : vaoHas p.vao sp.id
    · rw [draw_eq_of_not_has p sp sub hv hh, registerVAO_fst_canUse]
    · rw [draw_eq_of_has p sp sub hv hh]


theorem draw_fst_primitive (p : GLPrimitive) (sp : ShaderProgram)
    (sub : SubPrimitive) :
    (GLPrimitive.draw p sp sub).1.primitive = p.primitive := by
  cases hv : p.useVao
  · rw [draw_eq_of_not_useVao p sp sub hv, bba_fst_primitive]
  · cases hh : vaoHas p.vao sp.id
    · rw [draw_eq_of_not_has p sp sub hv hh, registerVAO_fst_primitive]
    · rw [draw_eq_of_has p sp sub hv hh]

theorem draw_preserves_vaoGet (p : GLPrimitive) (sp : ShaderProgram)
    (sub : SubPrimitive) (k v : Nat) (h : vaoGet p.vao k = some v) :
    vaoGet (GLPrimitive.draw p sp sub).1.vao k = some v := by
  cases hv : p.useVao
  · rw [draw_eq_of_not_useVao p sp sub hv, bba_fst_vao]
    exact h
  · cases hh : vaoHas p.vao sp.id
    · rw [draw_eq_of_not_has p sp sub hv hh, registerVAO_fst_vao]
      have hk : k ≠ sp.id := by
        intro hk
        subst hk
        simp [vaoHas, h] at hh
      rw [vaoGet_vaoSet_of_ne _ _ _ _ hk]
      exact h
    · rw [draw_eq_of_has p sp sub hv hh]
      exact h

theorem draw_vaoKeys_extend (p : GLPrimitive) (sp : ShaderProgram)
    (sub : SubPrimitive) :
    vaoKeys p.vao <+: vaoKeys (GLPrimitive.draw p sp sub).1.vao := by
  cases hv : p.useVao
  · rw [draw_eq_of_not_useVao p sp sub hv, bba_fst_vao]
  · cases hh : vaoHas p.vao sp.id
    · rw [draw_eq_of_not_has p sp sub hv hh, registerVAO_fst_vao,
        vaoKeys_vaoSet_of_not_has _ _ _ hh]
      exact ⟨[sp.id], rfl⟩
    · rw [draw_eq_of_has p sp sub hv hh]

theorem countP_isCreateVA_draw_of_not_useVao (p : GLPrimitive)
    (sp : ShaderProgram) (sub : SubPrimitive) (h : p.useVao = false) :
    (GLPrimitive.draw p sp sub).2.countP GLOp.isCreateVA = 0 := by
  rw [draw_eq_of_not_useVao p sp sub h]
  simp [List.countP_append, bba_snd, GLPrimitive.disableAttrib,
    bba_fst_attribLocArray, List.countP_cons, GLOp.isCreateVA,
    countP_isCreateVA_bbaLoop, countP_isCreateVA_glDrawDispatch,
    countP_isCreateVA_map_disable]

theorem countP_isCreateVA_draw_of_has (p : GLPrimitive)
    (sp : ShaderProgram) (sub : SubPrimitive) (hv : p.useVao = true)
    (hh : vaoHas p.vao sp.id = true) :
    (GLPrimitive.draw p sp sub).2.countP GLOp.isCreateVA = 0 := by
  rw [draw_eq_of_has p sp sub hv hh]
  simp [List.countP_append, List.countP_cons, GLOp.isCreateVA,
    countP_isCreateVA_glDrawDispatch]

theorem countP_isCreateVA_draw_of_not_has (p : GLPrimitive)
    (sp : ShaderProgram) (sub : SubPrimitive) (hv : p.useVao = true)
    (hh : vaoHas p.vao sp.id = false) :
    (GLPrimitive.draw p sp sub).2.countP GLOp.isCreateVA = 1 := by
  rw [draw_eq_of_not_has p sp sub hv hh]
  simp [List.countP_append, List.countP_cons, GLOp.isCreateVA,
    countP_isCreateVA_registerVAO, countP_isCreateVA_glDrawDispatch]

/-! ## Facts about `drawSeq` -/

theorem drawSeq_fst_useVao (calls : List (ShaderProgram × SubPrimitive))
    (p : GLPrimitive) :
    (GLPrimitive.drawSeq p calls).1.useVao = p.useVao := by
  induction calls generalizing p with
  | nil => rfl
  | cons c rest ih =>
    simp only [GLPrimitive.drawSeq]
    rw [ih, draw_fst_useVao]

theorem drawSeq_preserves_vaoGet (calls : List (ShaderProgram × SubPrimitive))
    (p : GLPrimitive) (k v : Nat) (h : vaoGet p.vao k = some v) :
    vaoGet (GLPrimitive.drawSeq p calls).1.vao k = some v := by
  induction calls generalizing p with
  | nil => exact h
  | cons c rest ih =>
    simp only [GLPrimitive.drawSeq]
    exact ih _ (draw_preserves_vaoGet p c.1 c.2 k v h)

theorem drawSeq_vaoKeys_extend (calls : List (ShaderProgram × SubPrimitive))
    (p : GLPrimitive) :
    vaoKeys p.vao <+: vaoKeys (GLPrimitive.drawSeq p calls).1.vao := by
  induction calls generalizing p with
  | nil => exact ⟨[], List.append_nil _⟩
  | cons c rest ih =>
    simp only [GLPrimitive.drawSeq]
    exact (draw_vaoKeys_extend p c.1 c.2).trans (ih _)

theorem freshIdCount_congr (k1 k2 : List Nat)
    (h : ∀ x, x ∈ k1 ↔ x ∈ k2) (l : List Nat) :
    freshIdCount k1 l = freshIdCount k2 l := by
  induction l generalizing k1 k2 with
  | nil => rfl
  | cons i rest ih =>
    by_cases hi : i ∈ k1
    · simp [freshIdCount, hi, (h i).mp hi, ih k1 k2 h]
    · have hi2 : i ∉ k2 := fun hh => hi ((h i).mpr hh)
      have hext : ∀ x, x ∈ i :: k1 ↔ x ∈ i :: k2 := by
        intro x
        simp [h x]
      simp [freshIdCount, hi, hi2, ih (i :: k1) (i :: k2) hext]

theorem drawSeq_countP_isCreateVA (calls : List (ShaderProgram × SubPrimitive))
    (p : GLPrimitive) (hv : p.useVao = true) :
    (GLPrimitive.drawSeq p calls).2.countP GLOp.isCreateVA =
      freshIdCount (vaoKeys p.vao) (calls.map fun c => c.1.id) := by
  induction calls generalizing p with
  | nil => rfl
  | cons c rest ih =>
    simp only [GLPrimitive.drawSeq, List.map_cons, List.countP_append]
    cases hh : vaoHas p.vao c.1.id
    · have hmem : c.1.id ∉ vaoKeys p.vao := by
        intro hmem
        rw [(vaoHas_iff_mem_vaoKeys p.vao c.1.id).mpr hmem] at hh
        exact Bool.noConfusion hh
      have hstate : (GLPrimitive.draw p c.1 c.2).1.vao =
          vaoSet p.vao c.1.id p.nextVao := by
        rw [draw_eq_of_not_has p c.1 c.2 hv hh, registerVAO_fst_vao]
      have huse : (GLPrimitive.draw p c.1 c.2).1.useVao = true := by
        rw [draw_fst_useVao]
        exact hv
      rw [countP_isCreateVA_draw_of_not_has p c.1 c.2 hv hh,
        ih _ huse, hstate, vaoKeys_vaoSet_of_not_has _ _ _ hh]
      have hcongr := freshIdCount_congr (vaoKeys p.vao ++ [c.1.id])
        (c.1.id :: vaoKeys p.vao) (by intro x; simp [or_comm])
        (rest.map fun cc => cc.1.id)
      rw [hcongr]
      simp [freshIdCount, hmem, Nat.add_comm]
    · have hmem : c.1.id ∈ vaoKeys p.vao :=
        (vaoHas_iff_mem_vaoKeys p.vao c.1.id).mp hh
      have hstate : (GLPrimitive.draw p c.1 c.2).1 = p := by
        rw [draw_eq_of_has p c.1 c.2 hv hh]
      rw [countP_isCreateVA_draw_of_has p c.1 c.2 hv hh, hstate, ih _ hv]
      simp [freshIdCount, hmem]

/-! ## Shared helpers for the claim theorems -/

theorem errorLogs_append (l1 l2 : List GLOp) :
    errorLogs (l1 ++ l2) = errorLogs l1 ++ errorLogs l2 :=
  List.filterMap_append _ _ _

theorem warnLogs_append (l1 l2 : List GLOp) :
    warnLogs (l1 ++ l2) = warnLogs l1 ++ warnLogs l2 :=
  List.filterMap_append _ _ _

theorem enabledLocs_append (l1 l2 : List GLOp) :
    enabledLocs (l1 ++ l2) = enabledLocs l1 ++ enabledLocs l2 :=
  List.filterMap_append _ _ _

theorem disabledLocs_append (l1 l2 : List GLOp) :
    disabledLocs (l1 ++ l2) = disabledLocs l1 ++ disabledLocs l2 :=
  List.filterMap_append _ _ _

theorem countP_isBindIndexBuffer_glDrawDispatch_none (u c : Bool)
    (prim : Primitive) (sub : SubPrimitive)
    (hibb : prim.indexBufferBinding = none) :
    (GLPrimitive.glDrawDispatch u c prim sub).countP GLOp.isBindIndexBuffer = 0 := by
  by_cases h0 : prim.instanceCount = 0 <;>
    cases u <;> cases c <;>
      simp_all [GLPrimitive.glDrawDispatch, GLOp.isBindIndexBuffer]

theorem draw_filter_isDrawCall_eq (p : GLPrimitive) (sp : ShaderProgram)
    (sub : SubPrimitive)
    (h : p.primitive.instanceCount = 0 ∨ p.canUseInstancedArrays = true) :
    (GLPrimitive.draw p sp sub).2.filter GLOp.isDrawCall =
      [specSelectedDraw p.primitive sub] := by
  cases hv : p.useVao
  · rw [draw_eq_of_not_useVao p sp sub hv]
    simp [List.filter_append, bba_snd, GLPrimitive.disableAttrib,
      bba_fst_attribLocArray, filter_isDrawCall_bbaLoop,
      filter_isDrawCall_map_disable, GLOp.isDrawCall,
      glDrawDispatch_filter_isDrawCall _ _ _ _ h]
  · cases hh : vaoHas p.vao sp.id
    · rw [draw_eq_of_not_has p sp sub hv hh]
      simp [List.filter_append, filter_isDrawCall_registerVAO, GLOp.isDrawCall,
        glDrawDispatch_filter_isDrawCall _ _ _ _ h]
    · rw [draw_eq_of_has p sp sub hv hh]
      simp [List.filter_append, GLOp.isDrawCall,
        glDrawDispatch_filter_isDrawCall _ _ _ _ h]

theorem draw_filter_isDrawCall_nil (p : GLPrimitive) (sp : ShaderProgram)
    (sub : SubPrimitive) (hic : p.primitive.instanceCount ≠ 0)
    (hcua : p.canUseInstancedArrays = false) :
    (GLPrimitive.draw p sp sub).2.filter GLOp.isDrawCall = [] := by
  have hdisp : ∀ u : Bool,
      GLPrimitive.glDrawDispatch u p.canUseInstancedArrays p.primitive sub =
        [GLOp.logError "ANGLE_instanced_arrays extension is not supported"] :=
    fun u => glDrawDispatch_error u _ _ _ hic hcua
  cases hv : p.useVao
  · rw [draw_eq_of_not_useVao p sp sub hv, hdisp]
    simp [List.filter_append, bba_snd, GLPrimitive.disableAttrib,
      bba_fst_attribLocArray, filter_isDrawCall_bbaLoop,
      filter_isDrawCall_map_disable, GLOp.isDrawCall]
  · cases hh : vaoHas p.vao sp.id
    · rw [draw_eq_of_not_has p sp sub hv hh, hdisp]
      simp [List.filter_append, filter_isDrawCall_registerVAO, GLOp.isDrawCall]
    · rw [draw_eq_of_has p sp sub hv hh, hdisp]
      simp [List.filter_append, GLOp.isDrawCall]

/-! ## Claim theorems -/

/-- C1: Whenever `GLPrimitive.draw` takes a branch that issues a GL draw
call (i.e. not the unsupported-instancing error branch), its trace
contains exactly one of `drawElements`, `drawArrays`,
`drawElementsInstanced`, `drawArraysInstanced`, and it is the one selected
by `(instanceCount, indexBufferBinding)` as the specification describes
(`specSelectedDraw`), with the spec-mandated arguments. -/
theorem draw_issues_exactly_selected_call (p : GLPrimitive)
    (sp : ShaderProgram) (sub : SubPrimitive)
    (h : p.primitive.instanceCount = 0 ∨ p.canUseInstancedArrays = true) :
    (GLPrimitive.draw p sp sub).2.filter GLOp.isDrawCall =
      [specSelectedDraw p.primitive sub] :=
  draw_filter_isDrawCall_eq p sp sub h

/-- Witness for C1: the non-instanced indexed sample issues exactly the
selected `drawElements` call. -/
theorem draw_issues_exactly_selected_call_witness :
    (GLPrimitive.draw sampleGL sampleShaderProgram sampleSub).2.filter
        GLOp.isDrawCall =
      [specSelectedDraw sampleGL.primitive sampleSub] :=
  draw_issues_exactly_selected_call sampleGL sampleShaderProgram sampleSub
    (Or.inl rfl)

/-- C3: `ShaderPool.init` registers exactly the six built-in shader
programs, in source order and with these names; the result is a fixed
constant (init takes no input), and "shadow" pairs the shadow-map vertex
shader with the shadow fragment shader. -/
theorem shaderPool_init_registers_builtins :
    ShaderPool.init.map Shader.name =
      ["blinn-phong", "pbr", "shadow-map", "shadow", "skybox",
        "particle-shader"] ∧
    ShaderPool.init =
      [{ name := "blinn-phong", vertexSource := ShaderSource.blinnPhongVs,
         fragmentSource := ShaderSource.blinnPhongFs },
       { name := "pbr", vertexSource := ShaderSource.pbrVs,
         fragmentSource := ShaderSource.pbrFs },
       { name := "shadow-map", vertexSource := ShaderSource.shadowMapVs,
         fragmentSource := ShaderSource.shadowMapFs },
       { name := "shadow", vertexSource := ShaderSource.shadowMapVs,
         fragmentSource := ShaderSource.shadowFs },
       { name := "skybox", vertexSource := ShaderSource.skyboxVs,
         fragmentSource := ShaderSource.skyboxFs },
       { name := "particle-shader", vertexSource := ShaderSource.particleVs,
         fragmentSource := ShaderSource.particleFs }] ∧
    ShaderPool.init[3]? =
      some { name := "shadow", vertexSource := ShaderSource.shadowMapVs,
             fragmentSource := ShaderSource.shadowFs } :=
  ⟨rfl, rfl, rfl⟩

/-- C4: with truthy `instanceCount` and no instanced-arrays support,
`draw` issues no GL draw call and its only error handling is the single
logged message; the function returns normally (it is total in the
embedding) with no other recovery action. -/
theorem draw_unsupported_instancing_logs_only (p : GLPrimitive)
    (sp : ShaderProgram) (sub : SubPrimitive)
    (hic : p.primitive.instanceCount ≠ 0)
    (hcua : p.canUseInstancedArrays = false) :
    (GLPrimitive.draw p sp sub).2.filter GLOp.isDrawCall = [] ∧
    errorLogs (GLPrimitive.draw p sp sub).2 =
      ["ANGLE_instanced_arrays extension is not supported"] := by
  refine ⟨draw_filter_isDrawCall_nil p sp sub hic hcua, ?_⟩
  have hdisp : ∀ u : Bool,
      GLPrimitive.glDrawDispatch u p.canUseInstancedArrays p.primitive sub =
        [GLOp.logError "ANGLE_instanced_arrays extension is not supported"] :=
    fun u => glDrawDispatch_error u _ _ _ hic hcua
  cases hv : p.useVao
  · rw [draw_eq_of_not_useVao p sp sub hv, hdisp]
    simp only [errorLogs_append, bba_snd, GLPrimitive.disableAttrib,
      bba_fst_attribLocArray, errorLogs_bbaLoop, errorLogs_map_disable]
    simp [errorLogs]
  · cases hh : vaoHas p.vao sp.id
    · rw [draw_eq_of_not_has p sp sub hv hh, hdisp]
      simp only [errorLogs_append, errorLogs_registerVAO, List.cons_append,
        List.nil_append]
      simp [errorLogs]
    · rw [draw_eq_of_has p sp sub hv hh, hdisp]
      simp [errorLogs]

/-- Witness for C4: the sample with `instanceCount = 2` and no
instanced-arrays support logs the error and draws nothing. -/
theorem draw_unsupported_instancing_logs_only_witness :
    (GLPrimitive.draw sampleGLNoInst sampleShaderProgram sampleSub).2.filter
        GLOp.isDrawCall = [] ∧
    errorLogs (GLPrimitive.draw sampleGLNoInst sampleShaderProgram
        sampleSub).2 =
      ["ANGLE_instanced_arrays extension is not supported"] :=
  draw_unsupported_instancing_logs_only sampleGLNoInst sampleShaderProgram
    sampleSub (by decide) rfl

/-- C10: `destroy` leaves the state (including the cache map) untouched,
deletes exactly one VAO per cache entry when the VAO capability is in
use, performs no GL operation otherwise, and emits nothing but
`deleteVertexArray` commands (in particular it never touches buffers or
attribute state). -/
theorem destroy_deletes_each_cached_vao (p : GLPrimitive) :
    (GLPrimitive.destroy p).1 = p ∧
    (if p.useVao then
      (GLPrimitive.destroy p).2 =
        p.vao.map (fun e => GLOp.deleteVertexArray e.2)
    else (GLPrimitive.destroy p).2 = []) ∧
    ((GLPrimitive.destroy p).2.all GLOp.isDeleteVA) = true := by
  cases hv : p.useVao
  · simp [GLPrimitive.destroy, hv]
  · refine ⟨?_, ?_, ?_⟩
    · simp [GLPrimitive.destroy, hv]
    · simp [GLPrimitive.destroy, hv]
    · have h2 : (GLPrimitive.destroy p).2 =
          p.vao.map (fun e => GLOp.deleteVertexArray e.2) := by
        simp [GLPrimitive.destroy, hv]
      rw [h2, List.all_eq_true]
      intro op hop
      rw [List.mem_map] at hop
      obtain ⟨e, -, rfl⟩ := hop
      rfl

/-- C2: with the VAO capability, `draw` binds the VAO cached under
`shaderProgram.id` — creating and registering it on the first draw with
that id — and on a cache hit specifies no vertex attributes directly (its
whole trace is VAO bind, dispatch, VAO unbind); without the capability it
specifies buffers and attributes via `bindBufferAndAttrib` on every
call. -/
theorem draw_vao_caching (p : GLPrimitive) (sp : ShaderProgram)
    (sub : SubPrimitive) :
    if p.useVao then
      (if vaoHas p.vao sp.id then
        (GLPrimitive.draw p sp sub).1 = p ∧
        (GLPrimitive.draw p sp sub).2 =
          GLOp.bindVertexArray (vaoGet p.vao sp.id) ::
            (GLPrimitive.glDrawDispatch true p.canUseInstancedArrays
                p.primitive sub ++
              [GLOp.bindVertexArray none]) ∧
        (GLPrimitive.draw p sp sub).2.filter GLOp.isAttribPointer = []
      else
        vaoGet (GLPrimitive.draw p sp sub).1.vao sp.id = some p.nextVao ∧
        (GLPrimitive.draw p sp sub).2 =
          (GLPrimitive.registerVAO p sp).2 ++
            GLOp.bindVertexArray (some p.nextVao) ::
              (GLPrimitive.glDrawDispatch true p.canUseInstancedArrays
                  p.primitive sub ++
                [GLOp.bindVertexArray none]) ∧
        (GLPrimitive.draw p sp sub).2.countP GLOp.isCreateVA = 1)
    else
      (GLPrimitive.draw p sp sub).2 =
        (GLPrimitive.bindBufferAndAttrib p sp).2 ++
          GLPrimitive.glDrawDispatch false p.canUseInstancedArrays
            p.primitive sub ++
          GLPrimitive.disableAttrib (GLPrimitive.bindBufferAndAttrib p sp).1 := by
  cases hv : p.useVao
  · rw [if_neg (by simp)]
    exact congrArg Prod.snd (draw_eq_of_not_useVao p sp sub hv)
  · rw [if_pos rfl]
    cases hh : vaoHas p.vao sp.id
    · rw [if_neg (by simp)]
      refine ⟨?_, ?_, countP_isCreateVA_draw_of_not_has p sp sub hv hh⟩
      · rw [draw_eq_of_not_has p sp sub hv hh, registerVAO_fst_vao]
        exact vaoGet_vaoSet_self _ _ _
      · exact congrArg Prod.snd (draw_eq_of_not_has p sp sub hv hh)
    · rw [if_pos rfl]
      refine ⟨?_, ?_, ?_⟩
      · rw [draw_eq_of_has p sp sub hv hh]
      · exact congrArg Prod.snd (draw_eq_of_has p sp sub hv hh)
      · rw [draw_eq_of_has p sp sub hv hh]
        simp [List.filter_append, GLOp.isAttribPointer,
          filter_isAttribPointer_glDrawDispatch]

/-- C5: in VAO mode VAO creation is idempotent per shader program: over
any sequence of draws the number of `createVertexArray` commands equals
the number of distinct shader-program ids not already cached (at most one
registration per id); cached entries keep their value through the whole
sequence, and a draw whose id is cached begins by binding exactly the
cached VAO. -/
theorem draw_vao_registration_idempotent (p : GLPrimitive)
    (calls : List (ShaderProgram × SubPrimitive)) (sp : ShaderProgram)
    (sub : SubPrimitive) (hv : p.useVao = true)
    (hh : vaoHas p.vao sp.id = true) :
    (GLPrimitive.drawSeq p calls).2.countP GLOp.isCreateVA =
      freshIdCount (vaoKeys p.vao) (calls.map fun c => c.1.id) ∧
    ((vaoKeys p.vao).all fun k =>
      vaoGet (GLPrimitive.drawSeq p calls).1.vao k == vaoGet p.vao k) = true ∧
    (GLPrimitive.draw p sp sub).2.head? =
      some (GLOp.bindVertexArray (vaoGet p.vao sp.id)) := by
  refine ⟨drawSeq_countP_isCreateVA calls p hv, ?_, ?_⟩
  · rw [List.all_eq_true]
    intro k hk
    have hsome : (vaoGet p.vao k).isSome = true :=
      (vaoHas_iff_mem_vaoKeys p.vao k).mpr hk
    obtain ⟨v, hval⟩ := Option.isSome_iff_exists.mp hsome
    rw [hval, drawSeq_preserves_vaoGet calls p k v hval]
    simp
  · rw [draw_eq_of_has p sp sub hv hh]
    rfl

/-- Witness for C5: one cached VAO under id 7; a repeat draw with id 7
creates nothing new, keeps the cache entry, and rebinds VAO 42. -/
theorem draw_vao_registration_idempotent_witness :
    (GLPrimitive.drawSeq sampleGLVao
        [(sampleShaderProgram, sampleSub)]).2.countP GLOp.isCreateVA =
      freshIdCount (vaoKeys sampleGLVao.vao)
        ([(sampleShaderProgram, sampleSub)].map fun c => c.1.id) ∧
    ((vaoKeys sampleGLVao.vao).all fun k =>
      vaoGet (GLPrimitive.drawSeq sampleGLVao
          [(sampleShaderProgram, sampleSub)]).1.vao k ==
        vaoGet sampleGLVao.vao k) = true ∧
    (GLPrimitive.draw sampleGLVao sampleShaderProgram sampleSub).2.head? =
      some (GLOp.bindVertexArray (vaoGet sampleGLVao.vao
        sampleShaderProgram.id)) :=
  draw_vao_registration_idempotent sampleGLVao
    [(sampleShaderProgram, sampleSub)] sampleShaderProgram sampleSub rfl rfl

theorem countP_isBindIndexBuffer_registerVAO_none (p : GLPrimitive)
    (sp : ShaderProgram) (hibb : p.primitive.indexBufferBinding = none) :
    (GLPrimitive.registerVAO p sp).2.countP GLOp.isBindIndexBuffer = 0 := by
  simp [GLPrimitive.registerVAO, GLPrimitive.bindBufferAndAttrib,
    GLPrimitive.disableAttrib, hibb, List.countP_append, List.countP_cons,
    GLOp.isBindIndexBuffer, countP_isBindIndexBuffer_bbaLoop,
    countP_isBindIndexBuffer_map_disable]

theorem countP_isBindIndexBuffer_registerVAO_some (p : GLPrimitive)
    (sp : ShaderProgram) (ibb : IndexBufferBinding)
    (hibb : p.primitive.indexBufferBinding = some ibb) :
    (GLPrimitive.registerVAO p sp).2.countP GLOp.isBindIndexBuffer = 1 := by
  simp [GLPrimitive.registerVAO, GLPrimitive.bindBufferAndAttrib,
    GLPrimitive.disableAttrib, hibb, List.countP_append, List.countP_cons,
    GLOp.isBindIndexBuffer, countP_isBindIndexBuffer_bbaLoop,
    countP_isBindIndexBuffer_map_disable]

/-- C6: `draw` binds the index buffer whenever one is present — in
non-VAO mode the native index buffer is bound to `ELEMENT_ARRAY_BUFFER`
immediately before the `drawElements`/`drawElementsInstanced` call and
unbound right after; in VAO mode `registerVAO` binds it exactly once,
right after the VAO is bound (trace position 2), so the VAO captures it.
With no index buffer, no non-null `ELEMENT_ARRAY_BUFFER` bind is ever
emitted. -/
theorem draw_binds_index_buffer (p : GLPrimitive) (sp : ShaderProgram)
    (sub : SubPrimitive) :
    match p.primitive.indexBufferBinding with
    | none =>
        (GLPrimitive.draw p sp sub).2.countP GLOp.isBindIndexBuffer = 0
    | some ibb =>
        if p.useVao then
          (GLPrimitive.registerVAO p sp).2.countP GLOp.isBindIndexBuffer = 1 ∧
          (GLPrimitive.registerVAO p sp).2[2]? =
            some (GLOp.bindElementArrayBuffer (some ibb.nativeBuffer))
        else
          if p.primitive.instanceCount = 0 then
            (GLPrimitive.draw p sp sub).2 =
              (GLPrimitive.bindBufferAndAttrib p sp).2 ++
                [GLOp.bindElementArrayBuffer (some ibb.nativeBuffer),
                 GLOp.drawElements sub.topology sub.count
                   p.primitive.glIndexType sub.start,
                 GLOp.bindElementArrayBuffer none] ++
                GLPrimitive.disableAttrib
                  (GLPrimitive.bindBufferAndAttrib p sp).1
          else if p.canUseInstancedArrays then
            (GLPrimitive.draw p sp sub).2 =
              (GLPrimitive.bindBufferAndAttrib p sp).2 ++
                [GLOp.bindElementArrayBuffer (some ibb.nativeBuffer),
                 GLOp.drawElementsInstanced sub.topology sub.count
                   p.primitive.glIndexType sub.start
                   p.primitive.instanceCount,
                 GLOp.bindElementArrayBuffer none] ++
                GLPrimitive.disableAttrib
                  (GLPrimitive.bindBufferAndAttrib p sp).1
          else
            (GLPrimitive.draw p sp sub).2.countP GLOp.isBindIndexBuffer = 0 := by
  cases hibb : p.primitive.indexBufferBinding with
  | none =>
    show (GLPrimitive.draw p sp sub).2.countP GLOp.isBindIndexBuffer = 0
    cases hv : p.useVao
    · rw [draw_eq_of_not_useVao p sp sub hv]
      simp [List.countP_append, List.countP_cons, bba_snd,
        GLPrimitive.disableAttrib, bba_fst_attribLocArray,
        GLOp.isBindIndexBuffer, countP_isBindIndexBuffer_bbaLoop,
        countP_isBindIndexBuffer_glDrawDispatch_none _ _ _ _ hibb,
        countP_isBindIndexBuffer_map_disable]
    · cases hh : vaoHas p.vao sp.id
      · rw [draw_eq_of_not_has p sp sub hv hh]
        simp [List.countP_append, List.countP_cons, GLOp.isBindIndexBuffer,
          countP_isBindIndexBuffer_registerVAO_none p sp hibb,
          countP_isBindIndexBuffer_glDrawDispatch_none _ _ _ _ hibb]
      · rw [draw_eq_of_has p sp sub hv hh]
        simp [List.countP_append, List.countP_cons, GLOp.isBindIndexBuffer,
          countP_isBindIndexBuffer_glDrawDispatch_none _ _ _ _ hibb]
  | some ibb =>
    show if p.useVao then _ ∧ _ else _
    cases hv : p.useVao
    · rw [if_neg (by simp)]
      by_cases hic : p.primitive.instanceCount = 0
      · rw [if_pos hic, draw_eq_of_not_useVao p sp sub hv]
        simp [GLPrimitive.glDrawDispatch, hic, hibb, hv]
      · rw [if_neg hic]
        cases hcua : p.canUseInstancedArrays
        · rw [if_neg (by simp)]
          rw [draw_eq_of_not_useVao p sp sub hv,
            glDrawDispatch_error _ _ _ _ hic hcua]
          simp [List.countP_append, List.countP_cons, bba_snd,
            GLPrimitive.disableAttrib, bba_fst_attribLocArray,
            GLOp.isBindIndexBuffer, countP_isBindIndexBuffer_bbaLoop,
            countP_isBindIndexBuffer_map_disable]
        · rw [if_pos rfl, draw_eq_of_not_useVao p sp sub hv]
          simp [GLPrimitive.glDrawDispatch, hic, hibb, hv, hcua]
    · rw [if_pos rfl]
      refine ⟨countP_isBindIndexBuffer_registerVAO_some p sp ibb hibb, ?_⟩
      simp [GLPrimitive.registerVAO, hibb]

/-- C7: the VAO cache never evicts: over any sequence of `draw` calls
every cached entry keeps its exact value (so the key set only grows, as
witnessed by the old key list being a prefix of the new one), and
`destroy` leaves the map — indeed the whole state — unchanged. -/
theorem vao_cache_never_evicts (p : GLPrimitive)
    (calls : List (ShaderProgram × SubPrimitive)) :
    ((vaoKeys p.vao).all fun k =>
      vaoGet (GLPrimitive.drawSeq p calls).1.vao k == vaoGet p.vao k) = true ∧
    vaoKeys p.vao <+: vaoKeys (GLPrimitive.drawSeq p calls).1.vao ∧
    (GLPrimitive.destroy (GLPrimitive.drawSeq p calls).1).1 =
      (GLPrimitive.drawSeq p calls).1 := by
  refine ⟨?_, drawSeq_vaoKeys_extend calls p, ?_⟩
  · rw [List.all_eq_true]
    intro k hk
    have hsome : (vaoGet p.vao k).isSome = true :=
      (vaoHas_iff_mem_vaoKeys p.vao k).mpr hk
    obtain ⟨v, hval⟩ := Option.isSome_iff_exists.mp hsome
    rw [hval, drawSeq_preserves_vaoGet calls p k v hval]
    simp
  · cases hv : (GLPrimitive.drawSeq p calls).1.useVao <;>
      simp [GLPrimitive.destroy, hv]

/-- C8: every `draw` call restores the global GL binding state it
changed, on the error branch as well: in VAO mode the trace ends by
resetting the VAO binding to null; in non-VAO mode the locations disabled
are exactly the locations enabled, both being exactly the recorded
`attribLocArray`, and `bindBufferAndAttrib` ends by resetting the
`ARRAY_BUFFER` binding to null. -/
theorem draw_restores_global_state (p : GLPrimitive) (sp : ShaderProgram)
    (sub : SubPrimitive) :
    if p.useVao then
      (GLPrimitive.draw p sp sub).2.getLast? = some (GLOp.bindVertexArray none)
    else
      enabledLocs (GLPrimitive.draw p sp sub).2 =
        disabledLocs (GLPrimitive.draw p sp sub).2 ∧
      disabledLocs (GLPrimitive.draw p sp sub).2 =
        (GLPrimitive.draw p sp sub).1.attribLocArray ∧
      (GLPrimitive.bindBufferAndAttrib p sp).2.getLast? =
        some (GLOp.bindArrayBuffer none) := by
  cases hv : p.useVao
  · rw [if_neg (by simp)]
    rw [draw_eq_of_not_useVao p sp sub hv]
    have henb : enabledLocs (GLPrimitive.bindBufferAndAttrib p sp).2 =
        (GLPrimitive.bbaLoop p.primitive p.canUseInstancedArrays
          sp.attributeLocation none).1 := by
      rw [bba_snd, enabledLocs_append, enabledLocs_bbaLoop]
      simp [enabledLocs]
    have hdis : disabledLocs (GLPrimitive.bindBufferAndAttrib p sp).2 = [] := by
      rw [bba_snd, disabledLocs_append, disabledLocs_bbaLoop]
      simp [disabledLocs]
    refine ⟨?_, ?_, ?_⟩
    · rw [enabledLocs_append, enabledLocs_append, disabledLocs_append,
        disabledLocs_append, henb, hdis, enabledLocs_glDrawDispatch,
        disabledLocs_glDrawDispatch, GLPrimitive.disableAttrib,
        bba_fst_attribLocArray, enabledLocs_map_disable,
        disabledLocs_map_disable]
      simp
    · rw [disabledLocs_append, disabledLocs_append, hdis,
        disabledLocs_glDrawDispatch, GLPrimitive.disableAttrib,
        bba_fst_attribLocArray, disabledLocs_map_disable]
      simp [bba_fst_attribLocArray]
    · rw [bba_snd]
      simp
  · rw [if_pos rfl]
    cases hh : vaoHas p.vao sp.id
    · rw [draw_eq_of_not_has p sp sub hv hh]
      simp [List.getLast?_cons, List.getLast?_append]
    · rw [draw_eq_of_has p sp sub hv hh]
      simp [List.getLast?_cons, List.getLast?_append]

/-- C9: `bindBufferAndAttrib` tolerates shader/primitive mismatches: a
location of `-1` contributes nothing (no op, no warning), an attribute
with no matching vertex element only produces the logged warning, the
remaining attributes are all configured — `attribLocArray` ends up being
exactly the enabled locations — and a draw call is still issued whenever
the dispatch is not the unsupported-instancing branch. -/
theorem bba_tolerates_mismatches (p : GLPrimitive) (sp : ShaderProgram)
    (sub : SubPrimitive) :
    (GLPrimitive.bindBufferAndAttrib p sp).1.attribLocArray =
      sp.attributeLocation.filterMap (fun nl =>
        if nl.2 = -1 then none
        else if (p.primitive.vertexElementMap nl.1).isSome then some nl.2
        else none) ∧
    enabledLocs (GLPrimitive.bindBufferAndAttrib p sp).2 =
      (GLPrimitive.bindBufferAndAttrib p sp).1.attribLocArray ∧
    warnLogs (GLPrimitive.bindBufferAndAttrib p sp).2 =
      sp.attributeLocation.filterMap (fun nl =>
        if nl.2 = -1 then none
        else if (p.primitive.vertexElementMap nl.1).isSome then none
        else some ("vertex attribute not found: " ++ nl.1)) ∧
    ((GLPrimitive.draw p sp sub).2.filter GLOp.isDrawCall).length =
      (if p.primitive.instanceCount = 0 ∨ p.canUseInstancedArrays = true
       then 1 else 0) := by
  refine ⟨?_, ?_, ?_, ?_⟩
  · rw [bba_fst_attribLocArray, bbaLoop_fst]
  · rw [bba_snd, enabledLocs_append, enabledLocs_bbaLoop,
      bba_fst_attribLocArray]
    simp [enabledLocs]
  · rw [bba_snd, warnLogs_append, warnLogs_bbaLoop]
    simp [warnLogs]
  · by_cases h : p.primitive.instanceCount = 0 ∨ p.canUseInstancedArrays = true
    · rw [if_pos h, draw_filter_isDrawCall_eq p sp sub h]
      rfl
    · rw [if_neg h]
      push_neg at h
      obtain ⟨h1, h2⟩ := h
      have h2b : p.canUseInstancedArrays = false := by
        revert h2
        cases p.canUseInstancedArrays <;> simp
      rw [draw_filter_isDrawCall_nil p sp sub h1 h2b]
      rfl
